import Mathlib

/-!
Verification development for `mne/stats/regression.py`, centred on the
`regress_continuous` pipeline (continuous-regression deconvolution of
overlapping evoked responses).

The Python module is shallowly embedded: machine floats of the source
become exact rationals (`ℚ`), numpy 1-d arrays become `List ℚ`,
2-d arrays become `List (List ℚ)` (row-major), Python dicts become
insertion-ordered association lists, and fallible evaluation returns
`Except PyErr`.  Name resolution of the module's global namespace is
modelled explicitly, because `regress_continuous` references the names
`scipy`, `mne` and (conditionally) `_reject_data_segments` which the
module never binds: the module header executes `from scipy import linalg`
(binding only `linalg`), relative imports of mne submodule members, and
never `import mne` or `import scipy`.

Rational arithmetic in executable positions is written with
`Rat.divInt` / `Rat.num` / `Rat.den` (which reduce inside the kernel)
rather than `HMul.hMul` on `ℚ`; `qMul_eq_mul` below shows this agrees
with ordinary multiplication.
-/

/-- Python exception values observable from the embedded code. -/
inductive PyErr where
  | nameError : String → PyErr
  | valueError : String → PyErr
  | indexError : String → PyErr
  | keyError : String → PyErr
  | attributeError : String → PyErr
  | linAlgError : String → PyErr
deriving Repr, DecidableEq

/-- Sequencing with Python exception propagation: an already-raised
exception aborts the rest of the computation. -/
def pyBind {α β : Type} (x : Except PyErr α) (f : α → Except PyErr β) : Except PyErr β :=
  match x with
  | .error e => .error e
  | .ok a => f a

/-- True iff evaluation completed without raising. -/
def exOk {α : Type} : Except PyErr α → Bool
  | .ok _ => true
  | .error _ => false

/-- Names bound in the module namespace of `mne/stats/regression.py`
(lines 7-18: `from collections import namedtuple`, `from inspect import
isgenerator`, `import warnings`, `import numpy as np`,
`from scipy import linalg`, relative mne imports) plus the three
module-level functions.  Neither `scipy` nor `mne` is ever bound. -/
def moduleNames : List String :=
  ["namedtuple", "isgenerator", "warnings", "np", "linalg",
   "SourceEstimate", "_BaseEpochs", "Evoked", "EvokedArray", "logger",
   "pick_types", "linear_regression", "_fit_lm", "regress_continuous"]

/-- Evaluating a bare name in the module scope: unbound names raise
`NameError`. -/
def evalName (s : String) : Except PyErr Unit :=
  if s ∈ moduleNames then .ok () else .error (.nameError s)

/-- Exact product of two rationals, written via `Rat.divInt` so that it
reduces inside the kernel; `qMul_eq_mul` shows it is ordinary
multiplication on `ℚ`. -/
def qMul (a b : ℚ) : ℚ := Rat.divInt (a.num * b.num) ((a.den : ℤ) * (b.den : ℤ))

theorem qMul_eq_mul (a b : ℚ) : qMul a b = a * b := by
  unfold qMul
  rw [Rat.divInt_eq_div]
  push_cast
  conv_rhs => rw [← Rat.num_div_den a, ← Rat.num_div_den b]
  rw [div_mul_div_comm]

/-- Python `int()` applied to a real number: truncation toward zero
(CPython: `int(-1.5) == -1`).  On a rational `num/den` in lowest terms
with positive `den` this is the truncating division of `num` by `den`. -/
def pyInt (q : ℚ) : ℤ := Int.tdiv q.num q.den

/-- Python `len`. -/
def pyLen {α : Type} (l : List α) : ℕ := l.length

/-- Association-list lookup with Python `dict[key]` semantics: a missing
key raises `KeyError`.  Python dicts preserve insertion order, which the
association list mirrors. -/
def dictLookup {α : Type} : List (String × α) → String → Except PyErr α
  | [], k => .error (.keyError k)
  | (k', v) :: rest, k => if k' = k then .ok v else dictLookup rest k

/-- Association-list lookup with Python `dict.get(key, default)`
semantics. -/
def lookupD {α : Type} : List (String × α) → String → α → α
  | [], _, d => d
  | (k', v) :: rest, k, d => if k' = k then v else lookupD rest k d

/-- Model of `np.zeros(n)` where `n` may be a negative Python int:
numpy raises `ValueError` on negative dimensions. -/
def npZeros (n : ℤ) : Except PyErr (List ℚ) :=
  if n < 0 then .error (.valueError "negative dimensions are not allowed")
  else .ok (List.replicate n.toNat 0)

/-- Model of the numpy indexed write `v[i] = x` for a scalar integer
index: indices in `[0, len v)` write directly, indices in `[-len v, 0)`
wrap around to `len v + i`, anything else raises `IndexError`. -/
def npSetIdx (v : List ℚ) (i : ℤ) (x : ℚ) : Except PyErr (List ℚ) :=
  if 0 ≤ i ∧ i < (v.length : ℤ) then .ok (v.set i.toNat x)
  else if -(v.length : ℤ) ≤ i ∧ i < 0 then .ok (v.set ((v.length : ℤ) + i).toNat x)
  else .error (.indexError "index out of bounds")

/-- Fancy-index assignment `v[idxs] = x` performed element by element. -/
def npSetAll (v : List ℚ) (idxs : List ℤ) (x : ℚ) : Except PyErr (List ℚ) :=
  match idxs with
  | [] => .ok v
  | i :: rest => pyBind (npSetIdx v i x) (fun v2 => npSetAll v2 rest x)

/-- Model of `samples[np.asarray(idxs) + tmin_] = 1` from the binary
branch (lines 231-233 of the source, with `idxs` already shifted by
`tmin_`).  `np.asarray([])` of an empty Python list has dtype float64,
and float arrays are rejected as indices, so the empty case raises
`IndexError`. -/
def binaryAssign (samples : List ℚ) (idxs : List ℤ) : Except PyErr (List ℚ) :=
  if idxs.isEmpty then
    .error (.indexError "arrays used as indices must be of integer type")
  else npSetAll samples idxs 1

/-- Model of the covariate write loop (lines 239-240 of the source):
`for tx, v in zip(events[:, 0], covariates[cond]): samples[tx + tmin_] =
np.float(v)`.  `np.float` is the historical alias of Python `float`, an
identity on our exact rationals.  `zip` stops at the shorter sequence. -/
def covariateAssign : List ℚ → List ℤ → List ℚ → ℤ → Except PyErr (List ℚ)
  | samples, [], _, _ => .ok samples
  | samples, _ :: _, [], _ => .ok samples
  | samples, tx :: ts, v :: vs, tmin_ =>
    pyBind (npSetIdx samples (tx + tmin_) v) (fun s2 => covariateAssign s2 ts vs tmin_)

/-- Model of `np.nonzero` on a 1-d array: numpy returns a TUPLE holding
one index array per dimension, here a one-element tuple containing the
list of indices of nonzero entries.  (`len` of this tuple is therefore
always 1 — see the `cond_length` analysis.) -/
def npNonzero (v : List ℚ) : List (List ℕ) :=
  [v.enum.filterMap (fun ix => if ix.2 ≠ 0 then some ix.1 else none)]

/-- Model of `scipy.linalg.toeplitz c r`: the matrix whose first column
is `c` and whose first row is `r` (with `r[0]` ignored in favour of
`c[0]`); entry `(i, j)` is `c[i-j]` for `j ≤ i` and `r[j-i]` above the
diagonal. -/
def toeplitz (c r : List ℚ) : List (List ℚ) :=
  (List.range c.length).map (fun i =>
    (List.range r.length).map (fun j =>
      if j ≤ i then c.getD (i - j) 0 else r.getD (j - i) 0))

/-- The per-condition lag expansion of line 245 of the source:
`scipy.linalg.toeplitz(samples, lags)` with `lags = np.zeros(n_lags)`. -/
def buildLagMatrix (samples : List ℚ) (n_lags : ℕ) : List (List ℚ) :=
  toeplitz samples (List.replicate n_lags 0)

/-- A `tmin`/`tmax` argument of `regress_continuous`: either one scalar
number of seconds for all conditions, or a per-condition mapping in
seconds. -/
inductive WinSpec where
  | scalar : ℚ → WinSpec
  | mapping : List (String × ℚ) → WinSpec
deriving Repr, DecidableEq

/-- A value of the `event_id` dict: an int or a list of ints. -/
inductive IdSpec where
  | one : ℤ → IdSpec
  | many : List ℤ → IdSpec
deriving Repr, DecidableEq

/-- The `reject` argument: `None`, `True` (default thresholds), or a
channel-type→threshold dict. -/
inductive RejectSpec where
  | none : RejectSpec
  | rtrue : RejectSpec
  | rdict : List (String × ℚ) → RejectSpec
deriving Repr, DecidableEq

/-- Membership test `e in ids` where `ids = [event_id[cond]]` if the
dict value is an int, else the value itself (lines 230-231). -/
def idMatch (spec : IdSpec) (e : ℤ) : Bool :=
  match spec with
  | .one v => e = v
  | .many l => e ∈ l

/-- The per-condition resolved `tmin` value in samples:
`int(tmin * sfreq)` in the scalar case, `int(tmin.get(cond, -.1) * sfreq)`
in the mapping case (lines 212-215 of the source). -/
def tminValue (spec : WinSpec) (sfreq : ℚ) (cond : String) : ℤ :=
  match spec with
  | .scalar q => pyInt (qMul q sfreq)
  | .mapping m => pyInt (qMul (lookupD m cond (Rat.divInt (-1) 10)) sfreq)

/-- The per-condition resolved `tmax` value in samples:
`int(tmax * sfreq)` resp. `int(tmax.get(cond, 1) * sfreq)`
(lines 216-219 of the source). -/
def tmaxValue (spec : WinSpec) (sfreq : ℚ) (cond : String) : ℤ :=
  match spec with
  | .scalar q => pyInt (qMul q sfreq)
  | .mapping m => pyInt (qMul (lookupD m cond 1) sfreq)

/-- Line 212-215: `tmin = {cond: int(tmin * sfreq) for cond in conds}`
resp. `{cond: int(tmin.get(cond, -.1) * sfreq) for cond in conds}`.
Both branches range over all of `conds`. -/
def resolveTmin (spec : WinSpec) (sfreq : ℚ) (conds : List String) : List (String × ℤ) :=
  match spec with
  | .scalar q => conds.map (fun c => (c, pyInt (qMul q sfreq)))
  | .mapping m => conds.map (fun c => (c, pyInt (qMul (lookupD m c (Rat.divInt (-1) 10)) sfreq)))

/-- Line 216-219: in the scalar branch the comprehension ranges over
`event_id.keys()` ONLY (`{cond: int(tmax * sfreq) for cond in
event_id.keys()}`), so covariate conditions receive no entry; the
mapping branch ranges over all of `conds`. -/
def resolveTmax (spec : WinSpec) (sfreq : ℚ) (conds eidKeys : List String) :
    List (String × ℤ) :=
  match spec with
  | .scalar q => eidKeys.map (fun c => (c, pyInt (qMul q sfreq)))
  | .mapping m => conds.map (fun c => (c, pyInt (qMul (lookupD m c 1) sfreq)))

/-- The `raw` argument as the pipeline consumes it: `data, times = raw[:]`
yields the channel-by-sample matrix and the time axis, and
`raw.info["sfreq"]` the sampling rate. -/
structure RawLike where
  data : List (List ℚ)
  times : List ℚ
  sfreq : ℚ
deriving Repr, DecidableEq

/-- The full argument tuple of `regress_continuous`.  Python defaults:
`event_id=None`, `tmin=-.1`, `tmax=1`, `covariates=None`, `reject=True`,
`tstep=None`. -/
structure RegressInput where
  raw : RawLike
  events : List (ℤ × ℤ × ℤ)
  event_id : Option (List (String × IdSpec))
  tmin : WinSpec
  tmax : WinSpec
  covariates : Option (List (String × List ℚ))
  reject : RejectSpec
  tstep : Option ℚ
deriving Repr

/-- The fields of the `mne.EvokedArray` the reconstruction loop would
build per condition (lines 280-287). -/
structure EvokedLike where
  data : List (List ℚ)
  tmin : ℚ
  comment : String
  nave : ℕ
deriving Repr, DecidableEq

/-- Keys of the `covariates` dict, in insertion order ([] when None). -/
def covKeys (covariates : Option (List (String × List ℚ))) : List String :=
  (covariates.getD []).map Prod.fst

/-- Lines 207-210: `conds = list(event_id.keys())`, extended by
`list(covariates.keys())` when covariates are given. -/
def condsOf (eid : List (String × IdSpec)) (covariates : Option (List (String × List ℚ))) :
    List String :=
  eid.map Prod.fst ++ covKeys covariates

/-- The values the function body has in scope after line 219: sample
count, events, the two dicts and the resolved window maps. -/
structure Ctx where
  T : ℕ
  events : List (ℤ × ℤ × ℤ)
  eid : List (String × IdSpec)
  covs : List (String × List ℚ)
  tminMap : List (String × ℤ)
  tmaxMap : List (String × ℤ)
  sfreq : ℚ
deriving Repr

def mkCtx (inp : RegressInput) (eid : List (String × IdSpec)) : Ctx :=
  { T := inp.raw.times.length
    events := inp.events
    eid := eid
    covs := inp.covariates.getD []
    tminMap := resolveTmin inp.tmin inp.raw.sfreq (condsOf eid inp.covariates)
    tmaxMap := resolveTmax inp.tmax inp.raw.sfreq (condsOf eid inp.covariates)
        (eid.map Prod.fst)
    sfreq := inp.raw.sfreq }

/-- The covariate-length error message of lines 235-237, with the
condition name interpolated by `.format`.  (The source string carries
literal backticks and the line-break indentation of the triple-quoted
literal; that surface noise is omitted.) -/
def covariateLengthMsg (cond : String) : String :=
  "Condition " ++ cond ++ " from covariates is not the same length as events"

/-- Lines 229-240: build the length-T indicator vector for one
condition.  The `cond in event_id.keys()` test is modelled as success of
the dict lookup (equivalent for association lists).  Binary conditions
write 1 at `event_sample + tmin_` for each matching event; covariate
conditions first check the covariate length against the event count and
then write the covariate values.  The shared construction is split into
the two branch functions `binaryPredictor` / `covariatePredictor` and
the dispatcher `indicatorFor`. -/
def binaryPredictor (ctx : Ctx) (spec : IdSpec) (tmin_ : ℤ) : Except PyErr (List ℚ) :=
  binaryAssign (List.replicate ctx.T (0:ℚ))
    ((ctx.events.filterMap (fun te => if idMatch spec te.2.2 then some te.1 else none)).map
      (fun t => t + tmin_))

def covariatePredictor (ctx : Ctx) (cond : String) (tmin_ : ℤ) : Except PyErr (List ℚ) :=
  pyBind (dictLookup ctx.covs cond) (fun vals =>
    if vals.length ≠ ctx.events.length then .error (.valueError (covariateLengthMsg cond))
    else covariateAssign (List.replicate ctx.T (0:ℚ)) (ctx.events.map (fun te => te.1))
      vals tmin_)

def indicatorFor (ctx : Ctx) (cond : String) (tmin_ : ℤ) : Except PyErr (List ℚ) :=
  match dictLookup ctx.eid cond with
  | .ok spec => binaryPredictor ctx spec tmin_
  | .error _ => covariatePredictor ctx cond tmin_

/-- Lines 225-240 of one loop iteration, up to and excluding the
Toeplitz call: window lookups (`tmin_, tmax_ = tmin[cond], tmax[cond]`),
`lags = np.zeros(n_lags)` (which raises on negative `n_lags`), and the
indicator construction. -/
def condStepPre (ctx : Ctx) (cond : String) : Except PyErr (List ℚ × List ℚ) :=
  pyBind (dictLookup ctx.tminMap cond) (fun tmin_ =>
  pyBind (dictLookup ctx.tmaxMap cond) (fun tmax_ =>
  pyBind (npZeros (tmax_ - tmin_)) (fun lags =>
  pyBind (indicatorFor ctx cond tmin_) (fun samples => .ok (samples, lags)))))

/-- One full iteration of the predictor loop (lines 225-245): after the
indicator, `cond_length[cond] = len(np.nonzero(samples))` (the length of
the TUPLE `np.nonzero` returns, not of the index array inside it), then
`pred_arrays.append(scipy.linalg.toeplitz(samples, lags))`, whose
evaluation begins with the unbound name `scipy`. -/
def condStep (ctx : Ctx) (cond : String) : Except PyErr (List (List ℚ) × ℕ) :=
  pyBind (condStepPre ctx cond) (fun sl =>
    let cl := pyLen (npNonzero sl.1)
    pyBind (evalName "scipy") (fun _ => .ok (toeplitz sl.1 sl.2, cl)))

/-- The `for cond in conds` predictor loop, collecting `pred_arrays` and
the `cond_length` dict. -/
def buildLoop (ctx : Ctx) :
    List String → Except PyErr (List (List (List ℚ)) × List (String × ℕ))
  | [] => .ok ([], [])
  | c :: rest =>
    pyBind (condStep ctx c) (fun ac =>
    pyBind (buildLoop ctx rest) (fun rs => .ok (ac.1 :: rs.1, (c, ac.2) :: rs.2)))

/-- Model of `np.hstack` on a list of T-row blocks: row-wise
concatenation; numpy raises `ValueError` on an empty input list. -/
def npHstack (blocks : List (List (List ℚ))) : Except PyErr (List (List ℚ)) :=
  match blocks with
  | [] => .error (.valueError "need at least one array to concatenate")
  | b :: _ => .ok ((List.range b.length).map (fun t => (blocks.map (fun bl => bl.getD t [])).flatten))

/-- Matrix transpose on row-major rectangular lists. -/
def matT (m : List (List ℚ)) : List (List ℚ) :=
  (List.range ((m.headD []).length)).map (fun j => m.map (fun row => row.getD j 0))

/-- Column selection `m[:, mask]`. -/
def selectCols (m : List (List ℚ)) (mask : List Bool) : List (List ℚ) :=
  m.map (fun row => (row.zip mask).filterMap (fun p => if p.2 then some p.1 else none))

/-- Lines 270-271: `X = big_arr[:, has_val]` then
`X = np.vstack((X, np.ones(X.shape[1]))).T` — select the valid sample
columns, append the intercept row of ones, transpose. -/
def buildX (bigArr : List (List ℚ)) (mask : List Bool) : List (List ℚ) :=
  matT (selectCols bigArr mask ++ [List.replicate ((selectCols bigArr mask).headD []).length 1])

/-- Max minus min of a window (0 on the empty window). -/
def peakToPeak (l : List ℚ) : ℚ :=
  match l with
  | [] => 0
  | x :: xs => xs.foldl max x - xs.foldl min x

/-- Modelled from the spec: `mne.utils._reject_data_segments` is code of
this repository that is not under src/.  Spec section 4.4: given the
continuous signal, a channel-type-keyed peak-to-peak threshold mapping
and a scan window length, return the list of (start_sample, end_sample)
ranges whose peak-to-peak amplitude exceeds the threshold.  The
channel-type keying is reduced to applying the smallest threshold of the
mapping to every channel. -/
def rejectDataSegments (data : List (List ℚ)) (thresh : List (String × ℚ)) (step : ℕ) :
    List (ℕ × ℕ) :=
  match thresh.map Prod.snd with
  | [] => []
  | t :: ts =>
    let thr := ts.foldl min t
    let T := (data.headD []).length
    if step = 0 then [] else
      (List.range (T / step + 1)).filterMap (fun k =>
        let a := k * step
        let b := min ((k + 1) * step) T
        if a < b ∧ data.any (fun ch => thr < peakToPeak ((ch.drop a).take step)) then
          some (a, b)
        else none)

/-- Lines 266-267: `for t0, t1 in inds: has_val[t0:t1] = False`. -/
def applyRejects (hv : List Bool) : List (ℕ × ℕ) → List Bool
  | [] => hv
  | (a, b) :: rest =>
    applyRejects (hv.enum.map (fun ix => if a ≤ ix.1 ∧ ix.1 < b then false else ix.2)) rest

/-- The default rejection thresholds of lines 256-260:
grad 4000e-12, mag 4e-11, eeg 40e-5, eog 250e-5. -/
def defaultReject : List (String × ℚ) :=
  [("grad", Rat.divInt 4 1000000000), ("mag", Rat.divInt 4 100000000000),
   ("eeg", Rat.divInt 4 10000), ("eog", Rat.divInt 1 400)]

/-- Lines 253-267, the artifact rejection block.  The conditional body
(lines 253-263) imports `_reject_data_segments` and fills in default
thresholds and `tstep`; the CALL on line 264 stands OUTSIDE the
`if reject is not None` block, so with `reject=None` it executes anyway
and finds the name `_reject_data_segments` unbound (the local import
never ran), raising `NameError`. -/
def rejectStage (data : List (List ℚ)) (reject : RejectSpec) (sfreq : ℚ) (tstep : Option ℚ)
    (hasVal : List Bool) : Except PyErr (List Bool) :=
  match reject with
  | .none => .error (.nameError "_reject_data_segments")
  | .rtrue =>
    .ok (applyRejects hasVal
      (rejectDataSegments data defaultReject (pyInt (qMul (tstep.getD 1) sfreq)).toNat))
  | .rdict d =>
    .ok (applyRejects hasVal
      (rejectDataSegments data d (pyInt (qMul (tstep.getD 1) sfreq)).toNat))

/-- Determinant by cofactor expansion along the first row (exact
specification of the determinant on row-major lists). -/
def detQ : List (List ℚ) → ℚ
  | [] => 1
  | r :: rest =>
    (r.enum.map (fun ix =>
      (if ix.1 % 2 = 0 then (1:ℚ) else -1) * ix.2 *
        detQ (rest.map (fun row => row.eraseIdx ix.1)))).foldl (· + ·) 0
termination_by m => m.length
decreasing_by simp

/-- Exact-arithmetic specification of `scipy.linalg.inv`: the inverse via
adjugate over determinant, raising `LinAlgError` on a singular input. -/
def scipyInv (A : List (List ℚ)) : Except PyErr (List (List ℚ)) :=
  if detQ A = 0 then .error (.linAlgError "singular matrix")
  else .ok ((List.range A.length).map (fun i => (List.range A.length).map (fun j =>
    ((if (i + j) % 2 = 0 then (1:ℚ) else -1) *
      detQ ((A.eraseIdx j).map (fun row => row.eraseIdx i))) / detQ A)))

def dotQ (a b : List ℚ) : ℚ := ((a.zip b).map (fun p => p.1 * p.2)).foldl (· + ·) 0

def matMul (A B : List (List ℚ)) : List (List ℚ) :=
  A.map (fun row => (matT B).map (fun col => dotQ row col))

/-- Lines 274-276, the joint solve:
`coefs = np.dot(scipy.linalg.inv(np.dot(X.T, X)), np.dot(X.T, Y.T)).T`.
Evaluation of the expression begins with the unbound name `scipy`; had
the name been bound, the formula is a LITERAL matrix inverse of the
normal equations, not a least-squares/pseudo-inverse method. -/
def solveStage (X Y : List (List ℚ)) : Except PyErr (List (List ℚ)) :=
  pyBind (evalName "scipy") (fun _ =>
  pyBind (scipyInv (matMul (matT X) X)) (fun iv =>
    .ok (matT (matMul iv (matMul (matT X) (matT Y))))))

/-- Lines 279-287, the reconstruction loop: per condition, look up the
window, evaluate `mne.EvokedArray(...)` (the name `mne` first), slice the
coefficient span of width `tmax_ - tmin_` starting at `cum`, and attach
`nave = cond_length[cond]` and `tmin_ / sfreq`. -/
def reconstructLoop (ctx : Ctx) (condLens : List (String × ℕ)) (coefs : List (List ℚ)) :
    List String → ℤ → Except PyErr (List (String × EvokedLike))
  | [], _ => .ok []
  | c :: rest, cum =>
    pyBind (dictLookup ctx.tminMap c) (fun tmin_ =>
    pyBind (dictLookup ctx.tmaxMap c) (fun tmax_ =>
    pyBind (evalName "mne") (fun _ =>
    pyBind (dictLookup condLens c) (fun n =>
    pyBind (reconstructLoop ctx condLens coefs rest (cum + (tmax_ - tmin_))) (fun evs =>
      .ok ((c, ({ data := coefs.map (fun row => (row.drop cum.toNat).take (tmax_ - tmin_).toNat),
                  tmin := (tmin_ : ℚ) / ctx.sfreq,
                  comment := c,
                  nave := n } : EvokedLike)) :: evs))))))

/-- The embedded `regress_continuous` (lines 141-289): window
resolution, the per-condition predictor loop, `np.hstack(...).T`, the
valid-sample flags, the rejection block, the joint solve, and the
reconstruction loop, with Python exception semantics throughout.
`event_id=None` (the Python default) raises `AttributeError` at
`event_id.keys()`. -/
def regressBody (inp : RegressInput) (eid : List (String × IdSpec)) :
    Except PyErr (List (String × EvokedLike)) :=
  pyBind (buildLoop (mkCtx inp eid) (condsOf eid inp.covariates)) (fun built =>
    pyBind (npHstack built.1) (fun stacked =>
    pyBind (rejectStage inp.raw.data inp.reject inp.raw.sfreq inp.tstep
        ((matT (matT stacked)).map (fun line =>
          decide (0 < ((npNonzero line).getD 0 []).length)))) (fun hv2 =>
    pyBind (solveStage (buildX (matT stacked) hv2) (selectCols inp.raw.data hv2)) (fun coefs =>
      reconstructLoop (mkCtx inp eid) built.2 coefs (condsOf eid inp.covariates) 0))))

def regressContinuous (inp : RegressInput) : Except PyErr (List (String × EvokedLike)) :=
  match inp.event_id with
  | none => .error (.attributeError "NoneType object has no attribute keys")
  | some eid => regressBody inp eid

/-- Event samples contributing to a condition: the matching events for a
binary condition, every event for a covariate condition. -/
def condEventSamples (eid : List (String × IdSpec)) (events : List (ℤ × ℤ × ℤ)) (c : String) :
    List ℤ :=
  match dictLookup eid c with
  | .ok spec => events.filterMap (fun te => if idMatch spec te.2.2 then some te.1 else none)
  | .error _ => events.map (fun te => te.1)

/-- All response windows `[t + tmin_samples, t + tmax_samples)` of all
conditions' events, in samples. -/
def eventWindowsOf (inp : RegressInput) : List (ℤ × ℤ) :=
  match inp.event_id with
  | none => []
  | some eid =>
    (condsOf eid inp.covariates).flatMap (fun c =>
      (condEventSamples eid inp.events c).map (fun t =>
        (t + tminValue inp.tmin inp.raw.sfreq c, t + tmaxValue inp.tmax inp.raw.sfreq c)))

/-- Pairwise disjointness of half-open integer intervals. -/
def pairwiseDisjointB : List (ℤ × ℤ) → Bool
  | [] => true
  | w :: rest =>
    rest.all (fun w2 => decide (w.2 ≤ w2.1 ∨ w2.2 ≤ w.1)) && pairwiseDisjointB rest

/-- Claim-side predicate, from the spec wording of the non-overlap
reduction property: no two response windows of any pair of events
overlap in time. -/
def nonOverlapB (inp : RegressInput) : Bool :=
  pairwiseDisjointB (eventWindowsOf inp)

/-! Helper lemmas. -/

theorem getD_map_range {α : Type} (n : ℕ) (f : ℕ → α) (i : ℕ) (d : α) (h : i < n) :
    (((List.range n).map f).getD i d) = f i := by
  rw [List.getD_eq_getElem?_getD, List.getElem?_map, List.getElem?_range h]
  rfl

theorem getD_replicate_zero (n i : ℕ) : ((List.replicate n (0:ℚ)).getD i 0) = 0 := by
  rw [List.getD_eq_getElem?_getD]
  rcases h : (List.replicate n (0:ℚ))[i]? with _ | x
  · rfl
  · have := List.getElem?_mem h
    simp only [List.eq_of_mem_replicate this]
    rfl

theorem getD_set_self (v : List ℚ) (n : ℕ) (x : ℚ) (h : n < v.length) :
    ((v.set n x).getD n 0) = x := by
  rw [List.getD_eq_getElem?_getD, List.getElem?_set_self]
  · rfl
  · exact h

theorem dictLookup_map_self {α : Type} (f : String → α) (ks : List String) (c : String) :
    dictLookup (ks.map (fun k => (k, f k))) c =
      if c ∈ ks then .ok (f c) else .error (.keyError c) := by
  induction ks with
  | nil => simp [dictLookup]
  | cons k rest ih =>
    simp only [List.map, dictLookup]
    by_cases hk : k = c
    · subst hk
      simp
    · rw [if_neg hk, ih]
      by_cases hc : c ∈ rest
      · rw [if_pos hc, if_pos (List.mem_cons_of_mem k hc)]
      · rw [if_neg hc, if_neg (by simp [List.mem_cons, hc, Ne.symm hk])]

theorem dictLookup_resolveTmin_head (spec : WinSpec) (sfreq : ℚ) (c : String)
    (cs : List String) :
    dictLookup (resolveTmin spec sfreq (c :: cs)) c = .ok (tminValue spec sfreq c) := by
  cases spec <;> simp [resolveTmin, dictLookup, tminValue]

theorem dictLookup_resolveTmax_head (spec : WinSpec) (sfreq : ℚ) (c : String)
    (cs ks : List String) :
    dictLookup (resolveTmax spec sfreq (c :: cs) (c :: ks)) c = .ok (tmaxValue spec sfreq c) := by
  cases spec <;> simp [resolveTmax, dictLookup, tmaxValue]

theorem dictLookup_resolveTmax_mapping_head (m : List (String × ℚ)) (sfreq : ℚ) (c : String)
    (cs ks : List String) :
    dictLookup (resolveTmax (.mapping m) sfreq (c :: cs) ks) c
      = .ok (tmaxValue (.mapping m) sfreq c) := by
  simp [resolveTmax, dictLookup, tmaxValue]

theorem regressBodyNeverOk (inp : RegressInput) (eid : List (String × IdSpec)) :
    exOk (regressBody inp eid) = false := by
  unfold regressBody
  cases hB : buildLoop (mkCtx inp eid) (condsOf eid inp.covariates) with
  | error e => rfl
  | ok built =>
    simp only [pyBind]
    cases hH : npHstack built.1 with
    | error e => rfl
    | ok stacked =>
      simp only [pyBind]
      cases hR : rejectStage inp.raw.data inp.reject inp.raw.sfreq inp.tstep
          ((matT (matT stacked)).map (fun line =>
            decide (0 < ((npNonzero line).getD 0 []).length))) with
      | error e => rfl
      | ok hv2 => rfl

theorem pipelineNeverOk (inp : RegressInput) : exOk (regressContinuous inp) = false := by
  unfold regressContinuous
  cases hE : inp.event_id with
  | none => rfl
  | some eid => exact regressBodyNeverOk inp eid

deriving instance DecidableEq for Except

/-! Claim theorems. -/

/-- C1: for every input, `regress_continuous` raises an exception before
returning any result — the function evaluates the names `scipy` (at the
Toeplitz construction and the normal-equation solve) and `mne` (at
response construction), but the module binds only `np` and `linalg`
(via `from scipy import linalg`) and never binds `scipy` or `mne`, so no
invocation can produce the documented condition-to-response mapping. -/
theorem c1_unbound_names_abort :
    "scipy" ∉ moduleNames ∧ "mne" ∉ moduleNames ∧ "np" ∈ moduleNames ∧
      "linalg" ∈ moduleNames ∧
      ∀ inp : RegressInput, exOk (regressContinuous inp) = false :=
  ⟨by decide, by decide, by decide, by decide, pipelineNeverOk⟩

/-- C4 (amended): the joint solve is never performed — the solve
statement `np.dot(scipy.linalg.inv(np.dot(X.T, X)), np.dot(X.T, Y.T)).T`
begins by evaluating the unbound name `scipy` and so raises `NameError`
on every input, instead of using a stable least-squares method or
raising a `SingularMatrixError`; the written formula is moreover a
literal matrix inverse of the normal equations. -/
theorem c4_amended_solve_unreachable (X Y : List (List ℚ)) :
    solveStage X Y = .error (.nameError "scipy") := rfl

/-- C4 counterexample: on a design with exactly collinear lag columns
(two conditions sharing the same event code, hence identical predictor
blocks), the call does not surface a `SingularMatrixError` — it crashes
with the unrelated `NameError` on `scipy` before any solve. -/
def c4input : RegressInput :=
  { raw := { data := [[1, 0, 2, 0, 1, 0]], times := [0, 1, 2, 3, 4, 5], sfreq := 1 }
    events := [(2, 0, 1)]
    event_id := some [("a", .one 1), ("b", .one 1)]
    tmin := .scalar 0
    tmax := .scalar 2
    covariates := none
    reject := .rtrue
    tstep := none }

theorem c4_counterexample :
    regressContinuous c4input = .error (.nameError "scipy") := by decide

/-- C5 (code_bug): the docstring states that `reject=None` disables
rejection, but the call to `_reject_data_segments` on line 264 stands
outside the `if reject is not None` block; with `reject=None` the
conditional import never runs and the call raises `NameError` on the
unbound name instead of excluding no ranges. -/
theorem c5_reject_none_nameError (data : List (List ℚ)) (sfreq : ℚ) (tstep : Option ℚ)
    (hv : List Bool) :
    rejectStage data RejectSpec.none sfreq tstep hv
      = .error (.nameError "_reject_data_segments") := rfl

set_option maxRecDepth 100000 in
/-- C3 (code_bug): for the spec scenario — one condition with events at
samples 100, 500 and 900 and `tmin_samples = -10` over a 1000-sample
recording — the indicator vector has 3 nonzero entries (the value
`len(np.nonzero(samples)[0])` used for `has_val` three lines below),
but `cond_length[cond] = len(np.nonzero(samples))` computes the length
of the TUPLE returned by `np.nonzero`, which is always 1; the attached
trial count would therefore be 1, not 3. -/
theorem c3_trial_count_bug :
    pyBind (binaryAssign (List.replicate 1000 0) ([100, 500, 900].map (fun t => t + (-10))))
      (fun s => .ok (pyLen (npNonzero s), ((npNonzero s).getD 0 []).length))
      = .ok (1, 3) := by decide

/-- C10 counterexample: an event whose onset plus `tmin_samples` is
negative is NOT always written at the wrapped index: when the offset is
below `-T` the indexed write raises `IndexError` instead (numpy only
wraps negative indices down to `-T`).  Here `T = 5` and the offset is
`-7`. -/
theorem c10_counterexample :
    binaryAssign (List.replicate 5 0) [-7]
      = .error (.indexError "index out of bounds") := by decide

/-- C10 (amended): the indexed write of the predictor builder follows
numpy indexing — an offset `i` with `-T ≤ i < 0` writes the value at the
wrapped index `T + i` near the end of the timeline (no clipping, no
dropping, no error), while an offset `i ≥ T` or `i < -T` raises
`IndexError`. -/
theorem c10_amended_wrap_policy (v : List ℚ) (i : ℤ) (x : ℚ) :
    (-(v.length : ℤ) ≤ i → i < 0 →
      ∃ w, npSetIdx v i x = .ok w ∧ w.getD ((v.length : ℤ) + i).toNat 0 = x ∧
        w.length = v.length) ∧
    (((v.length : ℤ) ≤ i ∨ i < -(v.length : ℤ)) →
      npSetIdx v i x = .error (.indexError "index out of bounds")) := by
  constructor
  · intro h1 h2
    have hlt : ((v.length : ℤ) + i).toNat < v.length := by omega
    refine ⟨v.set ((v.length : ℤ) + i).toNat x, ?_, getD_set_self v _ x hlt, by simp⟩
    unfold npSetIdx
    have hn : ¬(0 ≤ i ∧ i < (v.length : ℤ)) := by omega
    rw [if_neg hn, if_pos ⟨h1, h2⟩]
  · intro h
    unfold npSetIdx
    have hn1 : ¬(0 ≤ i ∧ i < (v.length : ℤ)) := by omega
    have hn2 : ¬(-(v.length : ℤ) ≤ i ∧ i < 0) := by omega
    rw [if_neg hn1, if_neg hn2]

theorem c10_amended_witness :
    ∃ w, npSetIdx [(0:ℚ), 0, 0] (-1) 5 = .ok w ∧ w.getD 2 0 = 5 ∧ w.length = 3 :=
  (c10_amended_wrap_policy [(0:ℚ), 0, 0] (-1) 5).1 (by decide) (by decide)

/-- C9: the lag expansion specified by the predictor builder
(`scipy.linalg.toeplitz(samples, np.zeros(n_lags))`) satisfies the
contract: for `t < T` and `l < n_lags`, entry `(t, l)` equals the
indicator value at sample `t - l` when `0 ≤ t - l < T` and is 0
otherwise. -/
theorem c9_lag_matrix_contract (samples : List ℚ) (n_lags t l : ℕ)
    (ht : t < samples.length) (hl : l < n_lags) :
    ((buildLagMatrix samples n_lags).getD t []).getD l 0 =
      if 0 ≤ (t : ℤ) - (l : ℤ) ∧ (t : ℤ) - (l : ℤ) < (samples.length : ℤ)
      then samples.getD (t - l) 0 else 0 := by
  unfold buildLagMatrix toeplitz
  rw [getD_map_range _ _ _ _ ht]
  rw [List.length_replicate]
  rw [getD_map_range _ _ _ _ hl]
  by_cases hle : l ≤ t
  · rw [if_pos hle, if_pos (by omega : 0 ≤ (t : ℤ) - (l : ℤ) ∧
      (t : ℤ) - (l : ℤ) < (samples.length : ℤ))]
  · rw [if_neg hle, if_neg (by omega : ¬(0 ≤ (t : ℤ) - (l : ℤ) ∧
      (t : ℤ) - (l : ℤ) < (samples.length : ℤ))), getD_replicate_zero]

theorem c9_witness :
    ((buildLagMatrix [(5:ℚ), 7] 2).getD 1 []).getD 1 0 = [(5:ℚ), 7].getD 0 0 := by
  have h := c9_lag_matrix_contract [(5:ℚ), 7] 2 1 1 (by decide) (by decide)
  rw [if_pos (by decide)] at h
  exact h

/-- Noise-free single-event input whose (single) response window
trivially overlaps nothing: one condition, one event at sample 2,
window `[0, 2)` samples, signal equal to the event's response kernel. -/
def c2input : RegressInput :=
  { raw := { data := [[0, 0, 3, 4, 0, 0]], times := [0, 1, 2, 3, 4, 5], sfreq := 1 }
    events := [(2, 0, 1)]
    event_id := some [("a", .one 1)]
    tmin := .scalar 0
    tmax := .scalar 2
    covariates := none
    reject := .rtrue
    tstep := none }

/-- C2 counterexample: on noise-free synthetic data whose response
windows are pairwise non-overlapping, the pipeline produces no
per-condition regression solution at all — the call aborts with
`NameError` on `scipy` at the first Toeplitz construction — so the
solution cannot equal the time-locked average. -/
theorem c2_counterexample :
    nonOverlapB c2input = true ∧
      regressContinuous c2input = .error (.nameError "scipy") := ⟨by decide, by decide⟩

/-- C2 (amended): on a non-overlapping noise-free input the pipeline
never produces a per-condition solution to compare with the time-locked
average: whenever the first condition's window lookups, `np.zeros` and
indicator construction succeed, the call fails with `NameError` on
`scipy` at the Toeplitz construction, before any solve. -/
theorem c2_amended_no_solution (inp : RegressInput) (eid : List (String × IdSpec))
    (c : String) (cs : List String)
    (hEid : inp.event_id = some eid)
    (hConds : condsOf eid inp.covariates = c :: cs)
    (hPre : exOk (condStepPre (mkCtx inp eid) c) = true)
    (_hNO : nonOverlapB inp = true) :
    regressContinuous inp = .error (.nameError "scipy") := by
  cases hP : condStepPre (mkCtx inp eid) c with
  | error e =>
    rw [hP] at hPre
    exact absurd hPre (by simp [exOk])
  | ok sl =>
    have hCS : condStep (mkCtx inp eid) c = .error (.nameError "scipy") := by
      unfold condStep
      rw [hP]
      rfl
    have hBL : buildLoop (mkCtx inp eid) (condsOf eid inp.covariates)
        = .error (.nameError "scipy") := by
      rw [hConds]
      show pyBind (condStep (mkCtx inp eid) c) _ = _
      rw [hCS]
      rfl
    unfold regressContinuous
    rw [hEid]
    show regressBody inp eid = _
    unfold regressBody
    rw [hBL]
    rfl

theorem c2_amended_witness :
    regressContinuous c2input = .error (.nameError "scipy") :=
  c2_amended_no_solution c2input [("a", IdSpec.one 1)] "a" [] rfl rfl (by decide) (by decide)

/-- Input with `tmin = 0.5 s`, `tmax = 0.2 s` at 100 Hz: the resolved
window is `(50, 20)` with `tmax_samples < tmin_samples`. -/
def c6input : RegressInput :=
  { raw := { data := [[0, 0, 0]], times := [0, 1, 2], sfreq := 100 }
    events := [(1, 0, 1)]
    event_id := some [("a", .one 1)]
    tmin := .scalar (Rat.divInt 1 2)
    tmax := .scalar (Rat.divInt 1 5)
    covariates := none
    reject := .rtrue
    tstep := none }

/-- Like `c6input` but the invalid window (`tmin 3 s > tmax 2 s`)
belongs to the SECOND condition "b", while the first condition "a" is
well-formed. -/
def c6input2 : RegressInput :=
  { raw := { data := [[0, 0, 0, 0, 0, 0]], times := [0, 1, 2, 3, 4, 5], sfreq := 1 }
    events := [(2, 0, 1), (3, 0, 2)]
    event_id := some [("a", .one 1), ("b", .one 2)]
    tmin := .mapping [("b", 3)]
    tmax := .scalar 2
    covariates := none
    reject := .rtrue
    tstep := none }

/-- C6 counterexample: window resolution raises no `ConfigurationError`
when `tmax_samples ≤ tmin_samples` — on `c6input` the resolver
successfully produces the pair `(50, 20)` and the eventual failure is a
`ValueError` from `np.zeros(n_lags)` DURING predictor construction; on
`c6input2`, whose second condition has an invalid window, the call
fails with the unrelated `NameError` on `scipy` raised by the FIRST
condition's Toeplitz construction, before the invalid window is ever
examined — so no eager validation exists. -/
theorem c6_counterexample :
    dictLookup (resolveTmin c6input.tmin c6input.raw.sfreq ["a"]) "a" = .ok 50 ∧
    dictLookup (resolveTmax c6input.tmax c6input.raw.sfreq ["a"] ["a"]) "a" = .ok 20 ∧
    regressContinuous c6input = .error (.valueError "negative dimensions are not allowed") ∧
    regressContinuous c6input2 = .error (.nameError "scipy") :=
  ⟨by decide, by decide, by decide, by decide⟩

/-- C6 (amended): no eager window validation exists — when the FIRST
condition's resolved window has `tmax_samples < tmin_samples`, the call
fails only inside predictor construction, with numpy's `ValueError`
from `np.zeros` of the negative `n_lags` (and a window with
`tmax_samples = tmin_samples`, or an invalid window of a later
condition, raises no window error at all). -/
theorem c6_amended_late_valueError (inp : RegressInput) (c : String) (ispec : IdSpec)
    (rest : List (String × IdSpec))
    (hEid : inp.event_id = some ((c, ispec) :: rest))
    (hNeg : tmaxValue inp.tmax inp.raw.sfreq c - tminValue inp.tmin inp.raw.sfreq c < 0) :
    regressContinuous inp = .error (.valueError "negative dimensions are not allowed") := by
  have h1 : dictLookup (mkCtx inp ((c, ispec) :: rest)).tminMap c
      = .ok (tminValue inp.tmin inp.raw.sfreq c) :=
    dictLookup_resolveTmin_head inp.tmin inp.raw.sfreq c _
  have h2 : dictLookup (mkCtx inp ((c, ispec) :: rest)).tmaxMap c
      = .ok (tmaxValue inp.tmax inp.raw.sfreq c) :=
    dictLookup_resolveTmax_head inp.tmax inp.raw.sfreq c _ _
  have hz : npZeros (tmaxValue inp.tmax inp.raw.sfreq c - tminValue inp.tmin inp.raw.sfreq c)
      = .error (.valueError "negative dimensions are not allowed") := by
    unfold npZeros
    rw [if_pos hNeg]
  have hPre : condStepPre (mkCtx inp ((c, ispec) :: rest)) c
      = .error (.valueError "negative dimensions are not allowed") := by
    unfold condStepPre
    rw [h1]
    simp only [pyBind]
    rw [h2]
    simp only [pyBind]
    rw [hz]
  have hCS : condStep (mkCtx inp ((c, ispec) :: rest)) c
      = .error (.valueError "negative dimensions are not allowed") := by
    unfold condStep
    rw [hPre]
    rfl
  have hBL : buildLoop (mkCtx inp ((c, ispec) :: rest))
      (condsOf ((c, ispec) :: rest) inp.covariates)
      = .error (.valueError "negative dimensions are not allowed") := by
    show pyBind (condStep (mkCtx inp ((c, ispec) :: rest)) c) _ = _
    rw [hCS]
    rfl
  unfold regressContinuous
  rw [hEid]
  show regressBody inp ((c, ispec) :: rest) = _
  unfold regressBody
  rw [hBL]
  rfl

theorem c6_amended_witness :
    regressContinuous c6input = .error (.valueError "negative dimensions are not allowed") :=
  c6_amended_late_valueError c6input "a" (IdSpec.one 1) [] rfl (by decide)

/-- C7 counterexample: the resolver is NOT floor-to-int and does NOT
cover every condition under the scalar `tmax` form.  With
`tmin = -0.015 s` at 100 Hz the product is `-1.5`; Python `int()`
truncates it to `-1` whereas the floor is `-2`.  And with a scalar
`tmax` the comprehension ranges over `event_id.keys()` only, so the
covariate condition "c" has no `tmax` entry at all (a later
`tmax[cond]` lookup raises `KeyError`). -/
theorem c7_counterexample :
    pyInt (qMul (Rat.divInt (-3) 200) 100) = -1 ∧
    ⌊qMul (Rat.divInt (-3) 200) (100 : ℚ)⌋ = -2 ∧
    dictLookup (resolveTmin (WinSpec.scalar (Rat.divInt (-3) 200)) 100 ["a"]) "a"
      = .ok (-1) ∧
    dictLookup (resolveTmax (WinSpec.scalar 1) 100 ["a", "c"] ["a"]) "c"
      = .error (.keyError "c") := by
  refine ⟨by decide, ?_, by decide, by decide⟩
  have hq : qMul (Rat.divInt (-3) 200) (100 : ℚ) = Rat.divInt (-3) 2 := by decide
  rw [hq, Rat.divInt_eq_div]
  norm_num

/-- C7 (amended): the window resolver maps conditions to integer sample
pairs obtained by TRUNCATE-TOWARD-ZERO int conversion of
seconds-times-sampling-rate (`pyInt`), with defaults `-0.1` / `1.0`
seconds; every condition receives a `tmin` entry under both spec forms,
and a `tmax` entry under the mapping form — but under the scalar `tmax`
form only conditions in `event_id` receive an entry, and a covariate
condition's lookup raises `KeyError`. -/
theorem c7_amended_resolver (tmn tmx : WinSpec) (sfreq : ℚ) (conds eidKeys : List String)
    (c : String) (hc : c ∈ conds) :
    dictLookup (resolveTmin tmn sfreq conds) c = .ok (tminValue tmn sfreq c) ∧
    (∀ m, tmx = .mapping m →
      dictLookup (resolveTmax tmx sfreq conds eidKeys) c = .ok (tmaxValue tmx sfreq c)) ∧
    (∀ q, tmx = .scalar q →
      dictLookup (resolveTmax tmx sfreq conds eidKeys) c =
        if c ∈ eidKeys then .ok (pyInt (qMul q sfreq)) else .error (.keyError c)) := by
  refine ⟨?_, ?_, ?_⟩
  · cases tmn with
    | scalar q =>
      rw [resolveTmin, dictLookup_map_self, if_pos hc]
      rfl
    | mapping m =>
      rw [resolveTmin, dictLookup_map_self, if_pos hc]
      rfl
  · intro m hm
    subst hm
    rw [resolveTmax, dictLookup_map_self, if_pos hc]
    rfl
  · intro q hq
    subst hq
    rw [resolveTmax, dictLookup_map_self]

theorem c7_amended_witness :
    dictLookup (resolveTmin (WinSpec.mapping [("a", Rat.divInt 1 5)]) 100 ["a", "c"]) "c"
      = .ok (tminValue (WinSpec.mapping [("a", Rat.divInt 1 5)]) 100 "c") ∧
    dictLookup (resolveTmax (WinSpec.mapping []) 100 ["a", "c"] ["a"]) "c"
      = .ok (tmaxValue (WinSpec.mapping []) 100 "c") :=
  ⟨(c7_amended_resolver (WinSpec.mapping [("a", Rat.divInt 1 5)]) (WinSpec.scalar 1) 100
      ["a", "c"] ["a"] "c" (by decide)).1,
   (c7_amended_resolver (WinSpec.scalar 1) (WinSpec.mapping []) 100
      ["a", "c"] ["a"] "c" (by decide)).2.1 [] rfl⟩

/-- Ten events, one binary condition, and a covariate of length 5: the
spec scenario for the covariate-length check. -/
def c8input : RegressInput :=
  { raw := { data := [[0, 0, 0, 0, 0, 0, 0, 0, 0, 0, 0, 0]],
             times := [0, 1, 2, 3, 4, 5, 6, 7, 8, 9, 10, 11], sfreq := 1 }
    events := [(0, 0, 1), (1, 0, 1), (2, 0, 1), (3, 0, 1), (4, 0, 1),
               (5, 0, 1), (6, 0, 1), (7, 0, 1), (8, 0, 1), (9, 0, 1)]
    event_id := some [("a", .one 1)]
    tmin := .scalar 0
    tmax := .scalar 2
    covariates := some [("c", [1, 2, 3, 4, 5])]
    reject := .rtrue
    tstep := none }

/-- C8 counterexample: a covariate of length 5 against 10 events does
NOT make the call fail with an error naming the condition — binary
conditions are processed first and the first condition's Toeplitz
construction raises `NameError` on `scipy` before the covariate length
is ever checked. -/
theorem c8_counterexample :
    (lookupD (c8input.covariates.getD []) "c" []).length = 5 ∧
    c8input.events.length = 10 ∧
    regressContinuous c8input = .error (.nameError "scipy") :=
  ⟨by decide, by decide, by decide⟩

/-- C8 (amended): the covariate length check fires only when the
mismatched covariate is the FIRST condition processed — `event_id`
empty (and `tmax` in per-condition mapping form, since an empty
`event_id` with a scalar `tmax` raises `KeyError` first) with a
non-negative resolved window; then the call raises `ValueError` whose
message names the offending condition.  In every other situation an
earlier error (in particular the `NameError` on `scipy` raised for the
first binary condition) preempts the check. -/
theorem c8_amended_first_covariate (inp : RegressInput) (m : List (String × ℚ))
    (c : String) (vals : List ℚ) (restCov : List (String × List ℚ))
    (hEid : inp.event_id = some [])
    (hTmax : inp.tmax = .mapping m)
    (hCov : inp.covariates = some ((c, vals) :: restCov))
    (hLen : vals.length ≠ inp.events.length)
    (hNl : 0 ≤ tmaxValue inp.tmax inp.raw.sfreq c - tminValue inp.tmin inp.raw.sfreq c) :
    regressContinuous inp = .error (.valueError (covariateLengthMsg c)) ∧
    covariateLengthMsg c
      = "Condition " ++ c ++ " from covariates is not the same length as events" := by
  constructor
  · have hck : condsOf [] inp.covariates = c :: restCov.map Prod.fst := by
      unfold condsOf covKeys
      rw [hCov]
      rfl
    have h1 : dictLookup (mkCtx inp []).tminMap c
        = .ok (tminValue inp.tmin inp.raw.sfreq c) := by
      show dictLookup (resolveTmin inp.tmin inp.raw.sfreq (condsOf [] inp.covariates)) c = _
      rw [hck]
      exact dictLookup_resolveTmin_head inp.tmin inp.raw.sfreq c _
    have h2 : dictLookup (mkCtx inp []).tmaxMap c
        = .ok (tmaxValue inp.tmax inp.raw.sfreq c) := by
      show dictLookup (resolveTmax inp.tmax inp.raw.sfreq (condsOf [] inp.covariates)
          (([] : List (String × IdSpec)).map Prod.fst)) c = _
      rw [hck, hTmax]
      exact dictLookup_resolveTmax_mapping_head m inp.raw.sfreq c _ _
    have hz : npZeros (tmaxValue inp.tmax inp.raw.sfreq c - tminValue inp.tmin inp.raw.sfreq c)
        = .ok (List.replicate (tmaxValue inp.tmax inp.raw.sfreq c
            - tminValue inp.tmin inp.raw.sfreq c).toNat 0) := by
      unfold npZeros
      rw [if_neg (by omega)]
    have hcovs : (mkCtx inp []).covs = (c, vals) :: restCov := by
      show inp.covariates.getD [] = _
      rw [hCov]
      rfl
    have hdc : dictLookup ((c, vals) :: restCov) c = .ok vals := by
      unfold dictLookup
      rw [if_pos rfl]
    have hInd : indicatorFor (mkCtx inp []) c (tminValue inp.tmin inp.raw.sfreq c)
        = .error (.valueError (covariateLengthMsg c)) := by
      show covariatePredictor (mkCtx inp []) c (tminValue inp.tmin inp.raw.sfreq c) = _
      unfold covariatePredictor
      rw [hcovs, hdc]
      simp only [pyBind]
      rw [show (mkCtx inp []).events = inp.events from rfl, if_pos hLen]
    have hPre : condStepPre (mkCtx inp []) c
        = .error (.valueError (covariateLengthMsg c)) := by
      unfold condStepPre
      rw [h1]
      simp only [pyBind]
      rw [h2]
      simp only [pyBind]
      rw [hz]
      simp only [pyBind]
      rw [hInd]
    have hCS : condStep (mkCtx inp []) c = .error (.valueError (covariateLengthMsg c)) := by
      unfold condStep
      rw [hPre]
      rfl
    have hBL : buildLoop (mkCtx inp []) (condsOf [] inp.covariates)
        = .error (.valueError (covariateLengthMsg c)) := by
      rw [hck]
      show pyBind (condStep (mkCtx inp []) c) _ = _
      rw [hCS]
      rfl
    unfold regressContinuous
    rw [hEid]
    show regressBody inp [] = _
    unfold regressBody
    rw [hBL]
    rfl
  · rfl

/-- Empty `event_id`, per-condition `tmax`, and a single covariate of
length 1 against 2 events. -/
def c8winput : RegressInput :=
  { raw := { data := [[0, 0, 0]], times := [0, 1, 2], sfreq := 1 }
    events := [(0, 0, 1), (1, 0, 1)]
    event_id := some []
    tmin := .scalar 0
    tmax := .mapping []
    covariates := some [("c", [7])]
    reject := .rtrue
    tstep := none }

theorem c8_amended_witness :
    regressContinuous c8winput = .error (.valueError (covariateLengthMsg "c")) ∧
    covariateLengthMsg "c"
      = "Condition " ++ "c" ++ " from covariates is not the same length as events" :=
  c8_amended_first_covariate c8winput [] "c" [7] [] rfl rfl rfl (by decide) (by decide)
